import Mathlib

/-!
Shallow embedding of `src/sumo_dndc/parser.py`.

The module provides a parser factory (`Parser.__new__`) over a fixed registry
of concrete parser classes (`AirchemParser`, `ClimateParser`, `SiteParser`,
`DailyResultsParser`), a shared delimited-text parse routine
(`TxtParser._parse` plus `TxtParser._set_index_col`), an XML site parse
(`SiteParser._parse`), and diagnostic renderings (`BaseParser.__repr__`,
`XmlParser.__repr__`).

Modelling conventions:
- Python exceptions are values of `PyError`; a routine that can raise returns
  `Except PyError _`.  (On an exception the real code may leave earlier field
  assignments in place; no claim below depends on the state after a raise, so
  an error result simply carries the exception.)
- A text file is its list of lines (newline terminators stripped); cell values
  are modelled by their source text (pandas' per-column numeric inference does
  not affect any of the filtering / column logic proved here, which only
  compares values for equality).
- String manipulation is re-implemented structurally on `List Char` so that
  the kernel can evaluate it (`String.splitOn` and friends use well-founded
  recursion and do not reduce).
-/

set_option autoImplicit false

/-! ## File kinds (`InFile`, `OutFile` enums) -/

inductive InFile
  | AIRCHEM
  | CLIMATE
  | EVENTS
  | SITE
  | SETUP
deriving DecidableEq, Repr

inductive OutFile
  | DAILY
  | YEARLY
deriving DecidableEq, Repr

/-- `Union[InFile, OutFile]`, the type of a parser's declared kind. -/
inductive FileKind
  | inF (k : InFile)
  | outF (k : OutFile)
deriving DecidableEq, Repr

/-! ## Python exceptions raised by the module -/

inductive PyError
  | notImplementedError
  | attributeError
  | nameError
  | indexError
  | keyError
  | emptyDataError
deriving DecidableEq, Repr

/-! ## String utilities (structural, kernel-evaluable) -/

/-- Split a character list on a single separator character (the `sep="\t"` of
`pd.read_csv`, the `"/"` of `Path`). Empty fields are kept. -/
def splitOnChar (sep : Char) : List Char → List (List Char)
  | [] => [[]]
  | c :: cs =>
      let r := splitOnChar sep cs
      if c = sep then [] :: r
      else
        match r with
        | [] => [[c]]
        | g :: gs => (c :: g) :: gs

/-- `leadsWith p l` : `p` is an initial segment of `l`. -/
def leadsWith : List Char → List Char → Bool
  | [], _ => true
  | _ :: _, [] => false
  | p :: ps, c :: cs => p = c && leadsWith ps cs

/-- `hasSub pat l` : `pat` occurs as a contiguous segment of `l`
(Python's `pat in line`). -/
def hasSub (pat : List Char) : List Char → Bool
  | [] => leadsWith pat []
  | c :: cs => leadsWith pat (c :: cs) || hasSub pat cs

/-- Python's `"%data" in line`. -/
def containsMarker (line : String) : Bool :=
  hasSub "%data".data line.data

/-- Split a line on tab characters (`pd.read_csv(..., sep="\t")` field split). -/
def splitTab (line : String) : List String :=
  (splitOnChar '\t' line.data).map String.mk

/-- `Path(p).name`: the last `/`-separated component. -/
def pathName (p : String) : String :=
  String.mk ((splitOnChar '/' p.data).getLastD [])

/-- `pd.to_datetime(v).dt.date` at date-only precision for the ISO-like
strings the module consumes: any time-of-day part after a space is dropped. -/
def toDate (s : String) : String :=
  String.mk (s.data.takeWhile (fun c => c ≠ ' '))

/-- Last index of character `c` in `cs`, if any. -/
def lastIdxOf (cs : List Char) (c : Char) : Option Nat :=
  match cs.reverse.findIdx? (fun x => x = c) with
  | none => none
  | some k => some (cs.length - 1 - k)

/-- `re.sub(r"\[.*\]", "", s)` with a greedy `.*`: the single match runs from
the first `[` to the last `]` after it; if no such pair exists the string is
unchanged (used by `DailyResultsParser.data_nounits`). -/
def stripUnits (s : String) : String :=
  let cs := s.data
  match cs.findIdx? (fun c => c = '[') with
  | none => s
  | some i =>
      let suffix := cs.drop i
      match lastIdxOf suffix ']' with
      | none => s
      | some j => String.mk (cs.take i ++ suffix.drop (j + 1))

/-- Python truthiness of an `Optional[List[...]]` argument (`if vars:` /
`if ids:` skip both `None` and the empty list). -/
def pyTruthyList {α : Type} (o : Option (List α)) : Bool :=
  match o with
  | none => false
  | some l => !l.isEmpty

/-- Python truthiness of an `Optional[str]` argument (`if id:` skips both
`None` and the empty string). -/
def pyTruthyStr (o : Option String) : Bool :=
  match o with
  | none => false
  | some s => !s.data.isEmpty

/-! ## Tabular documents (the `pd.DataFrame` shape the module relies on) -/

/-- A tabular parsed document: named columns, an optional named row index,
and rows in source order. -/
structure Table where
  columns : List String
  index : Option (String × List String)
  rows : List (List String)
deriving DecidableEq, Repr

/-- Values of column `c` (`data[c].values`); `none` when absent. -/
def colValues (t : Table) (c : String) : Option (List String) :=
  match t.columns.findIdx? (fun x => x = c) with
  | none => none
  | some i => some (t.rows.map (fun r => r.getD i ""))

/-- Drop position `i` from a list (helper for column removal). -/
def removeIdx {α : Type} (r : List α) (i : Nat) : List α :=
  r.take i ++ r.drop (i + 1)

/-- `data[c] = vals`: overwrite column `c` if present, else append it. -/
def setCol (t : Table) (c : String) (vals : List String) : Table :=
  match t.columns.findIdx? (fun x => x = c) with
  | some i =>
      { t with rows := (t.rows.zip vals).map (fun p => p.1.set i p.2) }
  | none =>
      { t with
        columns := t.columns ++ [c]
        rows := (t.rows.zip vals).map (fun p => p.1 ++ [p.2]) }

/-- `data.set_index(c)`: move column `c` out of the named columns into the
row index (the previous index, if any, is discarded). No-op if absent. -/
def setIndex (t : Table) (c : String) : Table :=
  match t.columns.findIdx? (fun x => x = c) with
  | some i =>
      { columns := removeIdx t.columns i
        index := some (c, t.rows.map (fun r => r.getD i ""))
        rows := t.rows.map (fun r => removeIdx r i) }
  | none => t

/-- `del data[c]` (only invoked by the module under a membership guard). -/
def delCol (t : Table) (c : String) : Table :=
  match t.columns.findIdx? (fun x => x = c) with
  | some i =>
      { t with
        columns := removeIdx t.columns i
        rows := t.rows.map (fun r => removeIdx r i) }
  | none => t

/-- `data[vs]` column selection: raises `KeyError` when a requested column is
absent, else keeps exactly the columns `vs` in the given order. -/
def selectCols (t : Table) (vs : List String) : Except PyError Table :=
  if vs.all (fun v => t.columns.contains v) then
    Except.ok
      { columns := vs
        index := t.index
        rows := t.rows.map (fun r =>
          vs.map (fun v =>
            match t.columns.findIdx? (fun x => x = v) with
            | some i => r.getD i ""
            | none => "")) }
  else Except.error PyError.keyError

/-- `pd.read_csv(fileInMem, sep="\t")`: first non-blank line is the header,
remaining non-blank lines are rows (`skip_blank_lines=True`); an empty input
raises (`EmptyDataError`). -/
def read_csv (text : List String) : Except PyError Table :=
  match text.filter (fun l => l ≠ "") with
  | [] => Except.error PyError.emptyDataError
  | header :: rest =>
      Except.ok
        { columns := splitTab header
          index := none
          rows := rest.map splitTab }

/-! ## XML documents (`xml.etree.ElementTree` as used by the module) -/

/-- An XML element: tag, attributes, child elements. -/
inductive Element
  | node (tag : String) (attrs : List (String × String)) (children : List Element)

/-- The element's tag. -/
def Element.tag : Element → String
  | .node t _ _ => t

/-- The element's attribute list. -/
def Element.attrs : Element → List (String × String)
  | .node _ a _ => a

/-- The element's child elements. -/
def Element.children : Element → List Element
  | .node _ _ c => c

/-- `root.findall("./" ++ tag)`: all immediate children with the given tag. -/
def findAll (e : Element) (tag : String) : List Element :=
  e.children.filter (fun c => Element.tag c = tag)

/-- `elem.find("./" ++ tag)`: the first immediate child with the given tag,
`None` when there is none. -/
def findChild (e : Element) (tag : String) : Option Element :=
  (findAll e tag).head?

/-! ## Parser instances -/

/-- A parsed payload: a tabular document (text parsers) or a selected XML
subtree (tree parsers). -/
inductive Doc
  | tab (t : Table)
  | tree (e : Element)

/-- The fields every parser instance carries (`BaseParser.__init__`). -/
structure ParserState where
  _data : Option Doc
  _name : Option String
  _path : Option String
  _type : Option FileKind

/-- `BaseParser.__init__(fileType)` with a valid `InFile`/`OutFile` kind
(in the embedding `FileKind` covers exactly the valid kinds, so the
`print("Not a valid input type")` branch is unreachable). -/
def baseInit (fileType : FileKind) : ParserState :=
  { _data := none, _name := none, _path := none, _type := some fileType }

/-- `BaseParser.data` property. -/
def BaseParser.dataProp (s : ParserState) : Option Doc :=
  s._data

/-- A text source file: its path and its lines. -/
structure TextFile where
  path : String
  lines : List String

/-- An XML source file: its path and its root element. -/
structure XmlFile where
  path : String
  root : Element

/-! ## `TxtParser` shared logic -/

/-- One iteration of the `_set_index_col` loop body for candidate `dcol`:
when that column is present, assign
`data["date"] = to_datetime(data[dcol]).dt.date`, re-index on `"date"`, and
delete `dcol`. -/
def promoteStep (data : Table) (dcol : String) : Table :=
  if data.columns.contains dcol then
    delCol (setIndex (setCol data "date" (((colValues data dcol).getD []).map toDate)) "date") dcol
  else data

/-- `TxtParser._set_index_col`: run the loop body over *both* candidate
column names `["datetime", "*"]`, in that order. -/
def TxtParser.set_index_col (data : Table) : Table :=
  ["datetime", "*"].foldl promoteStep data

/-- The header-skip loop of `TxtParser._parse`: `for line in fileInMem: if
"%data" in line: break` consumes every line up to and including the first
line containing the marker (all lines when no line contains it); what remains
is handed to `read_csv`. -/
def skipHeaderLines : List String → List String
  | [] => []
  | l :: ls => if containsMarker l then ls else skipHeaderLines ls

/-- The document produced by `TxtParser._parse(inFile, skip_header, daily,
vars)` from the file's lines. `daily` is threaded through but unused by the
shared routine. `if vars:` skips the selection for `None` and `[]`. -/
def txtParse (fileLines : List String) (skip_header : Bool) (daily : Bool)
    (vars : Option (List String)) : Except PyError Table := do
  let content := if skip_header then skipHeaderLines fileLines else fileLines
  let data ← read_csv content
  let data := TxtParser.set_index_col data
  if pyTruthyList vars then selectCols data (vars.getD []) else Except.ok data

/-- `TxtParser._parse` including the trailing provenance assignments
(`self._data = data; self._path = Path(inFile); self._name = ...`). -/
def TxtParser.parseFile (s : ParserState) (f : TextFile) (skip_header : Bool)
    (daily : Bool) (vars : Option (List String)) : Except PyError ParserState := do
  let data ← txtParse f.lines skip_header daily vars
  Except.ok
    { s with
      _data := some (Doc.tab data)
      _path := some f.path
      _name := some (pathName f.path) }

/-! ## Concrete parsers -/

/-- `AirchemParser.parse(inFile, vars)` =
`self._parse(inFile, skip_header=True, vars=vars)`. -/
def AirchemParser.parse (s : ParserState) (f : TextFile)
    (vars : Option (List String)) : Except PyError ParserState :=
  TxtParser.parseFile s f true false vars

/-- `ClimateParser.parse(inFile, vars)` =
`self._parse(inFile, skip_header=True, daily=True, vars=vars)`. -/
def ClimateParser.parse (s : ParserState) (f : TextFile)
    (vars : Option (List String)) : Except PyError ParserState :=
  TxtParser.parseFile s f true true vars

/-- `ClimateParser.encode(vars)` / `DailyResultsParser.encode(vars)`: computes
a local column list and returns `None`; no instance field is touched. -/
def encodeStub (s : ParserState) (vars : Option (List String)) : ParserState :=
  s

/-- `SiteParser._parse(inFile, id)`.

With a truthy `id` the loop `for site in sites: if site.id == id: break`
evaluates `site.id` on an `ElementTree` element, which has no such attribute:
the first iteration raises `AttributeError` (with no `site` children the loop
never runs and the later `site.find("./soil")` raises `NameError` on the
unbound `site`). With no (or a falsy) `id`, `site = sites[0]` raises
`IndexError` on an empty list, else the first site is selected and
`self._data = site.find("./soil")` (which is `None` when that site has no
`soil` child). -/
def SiteParser.parseFile (s : ParserState) (f : XmlFile) (id : Option String) :
    Except PyError ParserState :=
  let sites := findAll f.root "site"
  if pyTruthyStr id then
    match sites with
    | [] => Except.error PyError.nameError
    | _ :: _ => Except.error PyError.attributeError
  else
    match sites with
    | [] => Except.error PyError.indexError
    | site :: _ =>
        Except.ok
          { s with
            _data := (findChild site "soil").map Doc.tree
            _path := some f.path
            _name := some (pathName f.path) }

/-- `SiteParser.parse(inFile, id)` simply forwards to `_parse`. -/
def SiteParser.parse (s : ParserState) (f : XmlFile) (id : Option String) :
    Except PyError ParserState :=
  SiteParser.parseFile s f id

/-- The table produced by `DailyResultsParser.parse(inFile, vars, ids)`:
`self._parse(inFile, daily=True)` first, then the id filter, then the vars
selection (each step rewrites `self._data`). -/
def DailyResultsParser.parseTable (lines : List String)
    (vars ids : Option (List String)) : Except PyError Table := do
  let data ← txtParse lines false true none
  let data ←
    if pyTruthyList ids then do
      let reqIds := ids.getD []
      -- `self._data.id.values`: AttributeError when there is no `id` column
      let idvals ←
        match colValues data "id" with
        | some v => Except.ok v
        | none => Except.error PyError.attributeError
      -- `np.unique` returns sorted unique values; only membership is used
      let ids_present := idvals.dedup
      if reqIds.all (fun i => ids_present.contains i) then
        -- `self._data = self._data[self._data.id.isin(ids)]`
        Except.ok
          (match data.columns.findIdx? (fun x => x = "id") with
           | some i =>
               { data with rows := data.rows.filter (fun r => reqIds.contains (r.getD i "")) }
           | none => data)
      else
        -- prints "IDs not in file: ..." and leaves the data unfiltered
        Except.ok data
    else Except.ok data
  if pyTruthyList vars then selectCols data (vars.getD []) else Except.ok data

/-- `DailyResultsParser.parse(inFile, vars, ids)` including the provenance
assignments made by the inner `_parse`. -/
def DailyResultsParser.parse (s : ParserState) (f : TextFile)
    (vars ids : Option (List String)) : Except PyError ParserState := do
  let data ← DailyResultsParser.parseTable f.lines vars ids
  Except.ok
    { s with
      _data := some (Doc.tab data)
      _path := some f.path
      _name := some (pathName f.path) }

/-- `DailyResultsParser.data_nounits`: strips unit brackets from the held
document's column names by *assigning them back* to `self._data.columns`,
then returns `self._data`. Raises `AttributeError` when no tabular document
is held. -/
def DailyResultsParser.data_nounits (s : ParserState) :
    Except PyError (ParserState × Table) :=
  match s._data with
  | some (Doc.tab t) =>
      let t2 : Table := { t with columns := t.columns.map stripUnits }
      Except.ok ({ s with _data := some (Doc.tab t2) }, t2)
  | _ => Except.error PyError.attributeError

/-! ## Diagnostic renderings -/

/-- `repr` of an `InFile` member as Python prints it. -/
def showInFile : InFile → String
  | .AIRCHEM => "InFile.AIRCHEM"
  | .CLIMATE => "InFile.CLIMATE"
  | .EVENTS => "InFile.EVENTS"
  | .SITE => "InFile.SITE"
  | .SETUP => "InFile.SETUP"

/-- `repr` of an `OutFile` member as Python prints it. -/
def showOutFile : OutFile → String
  | .DAILY => "OutFile.DAILY"
  | .YEARLY => "OutFile.YEARLY"

/-- How `self._type` renders inside the f-string. -/
def showOptKind : Option FileKind → String
  | none => "None"
  | some (.inF k) => showInFile k
  | some (.outF k) => showOutFile k

/-- How `self._path` renders inside the f-string. -/
def showOptPath : Option String → String
  | none => "None"
  | some p => p

/-- `repr(self.data.head())`: the first five rows of the table, rendered
tab-joined (a diagnostic excerpt; its exact shape is not load-bearing). -/
def Table.headStr (t : Table) : String :=
  String.intercalate "\n"
    (String.intercalate "\t" t.columns :: (t.rows.take 5).map (String.intercalate "\t"))

/-- `BaseParser.__repr__`: the conditional expression inside the f-string is
lazy, so with no data the excerpt is simply empty and nothing can raise; with
a tabular document the `head()` excerpt follows; `head()` on a non-DataFrame
payload would raise. -/
def BaseParser.reprFn (s : ParserState) : Except PyError String :=
  match s._data with
  | none =>
      Except.ok
        ("Parser: " ++ showOptKind s._type ++ ", " ++ showOptPath s._path ++
         "\nData excerpt:\n")
  | some (Doc.tab t) =>
      Except.ok
        ("Parser: " ++ showOptKind s._type ++ ", " ++ showOptPath s._path ++
         "\nData excerpt:\n" ++ Table.headStr t)
  | some (Doc.tree _) => Except.error PyError.attributeError

/-- One pretty-printed line per element boundary (the minidom excerpt; its
exact shape is not load-bearing, only that it is defined for an element). -/
def xmlLines : Element → List String
  | .node t _ cs =>
      ("<" ++ t ++ ">") ::
        ((cs.attach.map (fun c => xmlLines c.1)).flatten ++ ["</" ++ t ++ ">"])
decreasing_by
  simp only [Element.node.sizeOf_spec]
  have h := List.sizeOf_lt_of_mem c.2
  omega

/-- `XmlParser.__repr__`: `pretty_xml` is computed *before* the `None`-guard
in the f-string, so `ET.tostring(self.data)` runs unconditionally and raises
when no document is held (`None` has no element interface; likewise a
non-element payload). -/
def XmlParser.reprFn (s : ParserState) : Except PyError String :=
  match s._data with
  | some (Doc.tree e) =>
      Except.ok
        ("Parser: " ++ showOptKind s._type ++ ", " ++ showOptPath s._path ++
         "\nData excerpt:\n" ++ String.intercalate "\n" ((xmlLines e).take 6))
  | _ => Except.error PyError.attributeError

/-! ## The factory (`class Parser`) -/

/-- The registered concrete parser classes. -/
inductive ParserClass
  | AirchemParser
  | ClimateParser
  | SiteParser
  | DailyResultsParser
deriving DecidableEq, Repr

/-- Each class's `_fileType` class attribute. -/
def ParserClass.fileType : ParserClass → FileKind
  | .AirchemParser => .inF .AIRCHEM
  | .ClimateParser => .inF .CLIMATE
  | .SiteParser => .inF .SITE
  | .DailyResultsParser => .outF .DAILY

/-- `BaseParser.is_parser_for(fileType)`: `fileType == cls._fileType`. -/
def is_parser_for (cls : ParserClass) (fileType : FileKind) : Bool :=
  fileType == cls.fileType

/-- A constructed parser instance: its class and its instance state. -/
structure ParserInstance where
  cls : ParserClass
  st : ParserState

/-- Constructing a concrete parser with no source file: every concrete
`__init__` calls `super().__init__(self._fileType)` and, with `inFile=None`,
skips the immediate parse. -/
def construct (cls : ParserClass) : ParserInstance :=
  { cls := cls, st := baseInit cls.fileType }

/-- `Parser.parsers`, the registry class attribute. -/
def Parser.parsers : List ParserClass :=
  [.AirchemParser, .ClimateParser, .SiteParser, .DailyResultsParser]

/-- `Parser.__new__(fileType)` (no source file), with the registry the scan
runs over made explicit (the source reads it from `self.parsers`): exactly
one match constructs that class; more than one match prints "Multiple parsers
matched..." and falls off the end of `__new__`, returning `None`; zero
matches raise `NotImplementedError`. -/
def Parser.new (registry : List ParserClass) (fileType : FileKind) :
    Except PyError (Option ParserInstance) :=
  match registry.filter (fun r => is_parser_for r fileType) with
  | [p] => Except.ok (some (construct p))
  | _ :: _ :: _ => Except.ok none
  | [] => Except.error PyError.notImplementedError

/-- The kinds for which a concrete parser is registered. -/
def registeredKinds : List FileKind :=
  [.inF .AIRCHEM, .inF .CLIMATE, .inF .SITE, .outF .DAILY]

/-! ## Operations on a live instance (for the kind-stability invariant) -/

/-- Every operation a caller can perform on a constructed parser instance. -/
inductive Op
  | airchemParse (f : TextFile) (vars : Option (List String))
  | climateParse (f : TextFile) (vars : Option (List String))
  | siteParse (f : XmlFile) (id : Option String)
  | dailyParse (f : TextFile) (vars ids : Option (List String))
  | dataAccess
  | dataNounits
  | encode (vars : Option (List String))
  | reprBase
  | reprXml

/-- The state after performing one operation (when the operation raises, no
field assignment has reached `self._type`, so the declared kind in particular
is the one from before the call). -/
def stepOp (s : ParserState) (op : Op) : ParserState :=
  match op with
  | .airchemParse f vars =>
      match AirchemParser.parse s f vars with
      | Except.ok s2 => s2
      | Except.error _ => s
  | .climateParse f vars =>
      match ClimateParser.parse s f vars with
      | Except.ok s2 => s2
      | Except.error _ => s
  | .siteParse f id =>
      match SiteParser.parse s f id with
      | Except.ok s2 => s2
      | Except.error _ => s
  | .dailyParse f vars ids =>
      match DailyResultsParser.parse s f vars ids with
      | Except.ok s2 => s2
      | Except.error _ => s
  | .dataAccess => s
  | .dataNounits =>
      match DailyResultsParser.data_nounits s with
      | Except.ok p => p.1
      | Except.error _ => s
  | .encode vars => encodeStub s vars
  | .reprBase => s
  | .reprXml => s

/-! ## Reduction lemmas for `Except` (the monad carrying Python exceptions) -/

/-- Bind on a success reduces. -/
@[simp] theorem except_bind_ok {α β : Type} (a : α) (f : α → Except PyError β) :
    (Except.ok a : Except PyError α) >>= f = f a := rfl

/-- Bind on an exception propagates it. -/
@[simp] theorem except_bind_error {α β : Type} (e : PyError) (f : α → Except PyError β) :
    (Except.error e : Except PyError α) >>= f = Except.error e := rfl

/-- Map on a success reduces. -/
@[simp] theorem except_map_ok {α β : Type} (f : α → β) (a : α) :
    Except.map f (Except.ok a : Except PyError α) = Except.ok (f a) := rfl

/-- Map on an exception propagates it. -/
@[simp] theorem except_map_error {α β : Type} (f : α → β) (e : PyError) :
    Except.map f (Except.error e : Except PyError α) = Except.error e := rfl

/-- A coerced-`Bool` conditional with literal `true` condition reduces. -/
theorem ite_true_bool {α : Type} (a b : α) : (if (true : Bool) then a else b) = a := rfl

/-- A coerced-`Bool` conditional with literal `false` condition reduces. -/
theorem ite_false_bool {α : Type} (a b : α) : (if (false : Bool) then a else b) = b := rfl

/-! ## Concrete example inputs used by counterexamples and witnesses -/

/-- A soil subtree for the site with id "A". -/
def exSoilA : Element := .node "soil" [("ph", "6.5")] []

/-- A soil subtree for the site with id "B". -/
def exSoilB : Element := .node "soil" [("ph", "4.2")] []

/-- An XML file whose root holds two `site` children with ids "A" and "B". -/
def exXmlFile : XmlFile :=
  { path := "sites.xml"
    root := .node "dndc" []
      [.node "site" [("id", "A")] [exSoilA], .node "site" [("id", "B")] [exSoilB]] }

/-- A held daily-results table with a unit-bracketed column name. -/
def exDailyTable : Table :=
  { columns := ["temp[C]", "id"], index := none, rows := [["5", "1"]] }

/-- A daily-results parser state holding `exDailyTable`. -/
def exDailyState : ParserState :=
  { _data := some (Doc.tab exDailyTable), _name := some "x.txt",
    _path := some "x.txt", _type := some (FileKind.outF OutFile.DAILY) }

/-! ## C1: the factory selects exactly one class for each registered kind -/

/-- C1: for every kind in {AirChemistry, Climate, Site, Daily} (the kinds
with a registered concrete parser), `Parser.__new__` scans the registry and
finds exactly one matching class, that class's declared `_fileType` equals
the requested kind, and the factory returns a constructed instance of that
class. -/
theorem C1_factory_selects_unique_matching_class (k : FileKind)
    (hk : k ∈ registeredKinds) :
    (Parser.parsers.filter (fun r => is_parser_for r k)).length = 1 ∧
    ∃ inst : ParserInstance,
      Parser.new Parser.parsers k = Except.ok (some inst) ∧
      inst.cls.fileType = k ∧
      is_parser_for inst.cls k = true ∧
      inst.st = baseInit k := by
  fin_cases hk
  · exact ⟨by decide, construct .AirchemParser, rfl, rfl, by decide, rfl⟩
  · exact ⟨by decide, construct .ClimateParser, rfl, rfl, by decide, rfl⟩
  · exact ⟨by decide, construct .SiteParser, rfl, rfl, by decide, rfl⟩
  · exact ⟨by decide, construct .DailyResultsParser, rfl, rfl, by decide, rfl⟩

/-- Witness for C1 at the Climate kind. -/
theorem C1_witness :
    (FileKind.inF InFile.CLIMATE ∈ registeredKinds) ∧
    ((Parser.parsers.filter (fun r => is_parser_for r (FileKind.inF InFile.CLIMATE))).length = 1 ∧
     ∃ inst : ParserInstance,
       Parser.new Parser.parsers (FileKind.inF InFile.CLIMATE) = Except.ok (some inst) ∧
       inst.cls.fileType = FileKind.inF InFile.CLIMATE ∧
       is_parser_for inst.cls (FileKind.inF InFile.CLIMATE) = true ∧
       inst.st = baseInit (FileKind.inF InFile.CLIMATE)) :=
  ⟨by decide, C1_factory_selects_unique_matching_class _ (by decide)⟩

/-! ## C6: factory behavior on zero and on multiple matches -/

/-- C6 counterexample: with two registered classes matching a kind, the
factory does not fail at all — the multiple-match branch prints a warning and
`__new__` falls through, returning `None` (no exception, no instance). -/
theorem C6_counterexample :
    Parser.new [ParserClass.AirchemParser, ParserClass.AirchemParser]
        (FileKind.inF InFile.AIRCHEM) = Except.ok none ∧
    ∀ e : PyError,
      Parser.new [ParserClass.AirchemParser, ParserClass.AirchemParser]
          (FileKind.inF InFile.AIRCHEM) ≠ Except.error e := by
  refine ⟨rfl, fun e h => ?_⟩
  exact Except.noConfusion h

/-- C6 as amended: zero matches raise (`NotImplementedError`, the module's
rendering of an unsupported kind), while more than one match returns `None`
without raising; in neither case is a parser instance returned. -/
theorem C6_amended_zero_raises_multi_returns_none
    (registry : List ParserClass) (k : FileKind) :
    ((registry.filter (fun r => is_parser_for r k)).length = 0 →
        Parser.new registry k = Except.error PyError.notImplementedError) ∧
    (1 < (registry.filter (fun r => is_parser_for r k)).length →
        Parser.new registry k = Except.ok none) := by
  rcases hm : registry.filter (fun r => is_parser_for r k) with _ | ⟨a, _ | ⟨b, tl⟩⟩ <;>
    constructor <;> intro h <;> simp [Parser.new, hm] <;> simp [hm] at h

/-- Witness for C6 as amended: the empty registry raises; a duplicated
registry returns `None`. -/
theorem C6_witness :
    Parser.new [] (FileKind.inF InFile.AIRCHEM) =
      Except.error PyError.notImplementedError ∧
    Parser.new [ParserClass.ClimateParser, ParserClass.ClimateParser]
        (FileKind.inF InFile.CLIMATE) = Except.ok none :=
  ⟨(C6_amended_zero_raises_multi_returns_none [] _).1 (by decide),
   (C6_amended_zero_raises_multi_returns_none
      [ParserClass.ClimateParser, ParserClass.ClimateParser] _).2 (by decide)⟩

/-! ## C3: site selection by id -/

/-- C3 (code bug, evaluated): on an XML file with two sites "A" and "B",
parsing with no id does select the first site in document order and hold its
`soil` subtree — but parsing with `id="B"` raises `AttributeError` instead of
returning B's `soil` subtree: the selection loop evaluates `site.id`, an
attribute an `ElementTree` element does not have. (Even read as the intended
attribute lookup, a non-matching id would fall through with `site` bound to
the *last* site rather than raising `SiteNotFound`.) -/
theorem C3_site_selection_evaluated :
    SiteParser.parse (baseInit (FileKind.inF InFile.SITE)) exXmlFile (some "B") =
      Except.error PyError.attributeError ∧
    SiteParser.parse (baseInit (FileKind.inF InFile.SITE)) exXmlFile none =
      Except.ok
        { _data := some (Doc.tree exSoilA), _name := some "sites.xml",
          _path := some "sites.xml", _type := some (FileKind.inF InFile.SITE) } :=
  ⟨rfl, rfl⟩

/-! ## C10: rendering in the no-data state -/

/-- C10: rendering a tree-based parser with no parsed document fails (the
pretty-printing of `self.data` runs before the `None`-guard), while the
text-side rendering is lazy in its excerpt and succeeds, producing the kind,
the path, and an empty excerpt. -/
theorem C10_repr_nodata (s : ParserState) (h : s._data = none) :
    XmlParser.reprFn s = Except.error PyError.attributeError ∧
    BaseParser.reprFn s =
      Except.ok ("Parser: " ++ showOptKind s._type ++ ", " ++ showOptPath s._path ++
        "\nData excerpt:\n") := by
  constructor <;> simp [XmlParser.reprFn, BaseParser.reprFn, h]

/-- Witness for C10 on a freshly constructed site parser. -/
theorem C10_witness :
    ((baseInit (FileKind.inF InFile.SITE))._data = none) ∧
    (XmlParser.reprFn (baseInit (FileKind.inF InFile.SITE)) =
        Except.error PyError.attributeError ∧
     BaseParser.reprFn (baseInit (FileKind.inF InFile.SITE)) =
        Except.ok ("Parser: " ++ showOptKind (baseInit (FileKind.inF InFile.SITE))._type ++
          ", " ++ showOptPath (baseInit (FileKind.inF InFile.SITE))._path ++
          "\nData excerpt:\n")) :=
  ⟨rfl, C10_repr_nodata _ rfl⟩

/-! ## C8: the no-units view mutates the held document -/

/-- C8 counterexample: accessing `data_nounits` on a held table with column
"temp[C]" rewrites the held document's columns in place — afterwards the
`data` property observes the stripped names, contradicting the claim that
the held document is left unchanged. -/
theorem C8_counterexample :
    DailyResultsParser.data_nounits exDailyState =
      Except.ok
        ({ exDailyState with
            _data := some (Doc.tab { exDailyTable with columns := ["temp", "id"] }) },
         { exDailyTable with columns := ["temp", "id"] }) ∧
    BaseParser.dataProp
        { exDailyState with
            _data := some (Doc.tab { exDailyTable with columns := ["temp", "id"] }) } ≠
      BaseParser.dataProp exDailyState := by
  refine ⟨rfl, fun h => ?_⟩
  simp only [BaseParser.dataProp, exDailyState, exDailyTable] at h
  injection h with h1
  injection h1 with h2
  exact absurd (congrArg Table.columns h2) (by decide)

/-- C8 as amended: `data_nounits` computes the stripped column names on each
access and returns the held document — but it first *assigns the stripped
names back*, so the held `ParsedDocument` (as observed via `data`) changes
with it. -/
theorem C8_amended_nounits_mutates (s : ParserState) (t : Table)
    (h : s._data = some (Doc.tab t)) :
    DailyResultsParser.data_nounits s =
      Except.ok
        ({ s with _data := some (Doc.tab { t with columns := t.columns.map stripUnits }) },
         { t with columns := t.columns.map stripUnits }) ∧
    (DailyResultsParser.data_nounits s).map (fun p => BaseParser.dataProp p.1) =
      Except.ok (some (Doc.tab { t with columns := t.columns.map stripUnits })) ∧
    stripUnits "temp[C]" = "temp" := by
  refine ⟨?_, ?_, by decide⟩ <;> simp [DailyResultsParser.data_nounits, h, BaseParser.dataProp]

/-- Witness for C8 as amended, at the concrete held table. -/
theorem C8_witness :
    (exDailyState._data = some (Doc.tab exDailyTable)) ∧
    (DailyResultsParser.data_nounits exDailyState =
        Except.ok
          ({ exDailyState with
              _data := some (Doc.tab
                { exDailyTable with columns := exDailyTable.columns.map stripUnits }) },
           { exDailyTable with columns := exDailyTable.columns.map stripUnits }) ∧
     (DailyResultsParser.data_nounits exDailyState).map (fun p => BaseParser.dataProp p.1) =
        Except.ok (some (Doc.tab
          { exDailyTable with columns := exDailyTable.columns.map stripUnits })) ∧
     stripUnits "temp[C]" = "temp") :=
  ⟨rfl, C8_amended_nounits_mutates exDailyState exDailyTable rfl⟩

/-! ## Helper lemmas: successful parses only rewrite data and provenance -/

/-- A successful shared text parse leaves the declared kind unchanged. -/
theorem parseFile_ok_type {s s2 : ParserState} {f : TextFile} {sh d : Bool}
    {vars : Option (List String)}
    (h : TxtParser.parseFile s f sh d vars = Except.ok s2) : s2._type = s._type := by
  unfold TxtParser.parseFile at h
  cases ht : txtParse f.lines sh d vars with
  | error e => rw [ht] at h; simp at h
  | ok t => rw [ht] at h; simp at h; subst h; rfl

/-- A successful daily-results parse leaves the declared kind unchanged. -/
theorem dailyParse_ok_type {s s2 : ParserState} {f : TextFile}
    {vars ids : Option (List String)}
    (h : DailyResultsParser.parse s f vars ids = Except.ok s2) : s2._type = s._type := by
  unfold DailyResultsParser.parse at h
  cases ht : DailyResultsParser.parseTable f.lines vars ids with
  | error e => rw [ht] at h; simp at h
  | ok t => rw [ht] at h; simp at h; subst h; rfl

/-- A successful site parse leaves the declared kind unchanged. -/
theorem siteParse_ok_type {s s2 : ParserState} {f : XmlFile} {id : Option String}
    (h : SiteParser.parse s f id = Except.ok s2) : s2._type = s._type := by
  unfold SiteParser.parse SiteParser.parseFile at h
  cases hpt : pyTruthyStr id <;> rw [hpt] at h <;> simp only [if_true, if_false] at h
  · cases hs : findAll f.root "site" with
    | nil => rw [hs] at h; simp at h
    | cons site rest => rw [hs] at h; simp at h; subst h; rfl
  · cases hs : findAll f.root "site" with
    | nil => rw [hs] at h; simp at h
    | cons site rest => rw [hs] at h; simp at h

/-- No single operation on a live instance changes the declared kind. -/
theorem stepOp_preserves_type (s : ParserState) (op : Op) :
    (stepOp s op)._type = s._type := by
  cases op with
  | airchemParse f vars =>
      simp only [stepOp]
      cases h : AirchemParser.parse s f vars with
      | ok s2 => exact parseFile_ok_type h
      | error e => rfl
  | climateParse f vars =>
      simp only [stepOp]
      cases h : ClimateParser.parse s f vars with
      | ok s2 => exact parseFile_ok_type h
      | error e => rfl
  | siteParse f id =>
      simp only [stepOp]
      cases h : SiteParser.parse s f id with
      | ok s2 => exact siteParse_ok_type h
      | error e => rfl
  | dailyParse f vars ids =>
      simp only [stepOp]
      cases h : DailyResultsParser.parse s f vars ids with
      | ok s2 => exact dailyParse_ok_type h
      | error e => rfl
  | dataAccess => rfl
  | dataNounits =>
      simp only [stepOp, DailyResultsParser.data_nounits]
      rcases s with ⟨d, n, p, ty⟩
      rcases d with _ | ⟨t | e⟩ <;> rfl
  | encode vars => rfl
  | reprBase => rfl
  | reprXml => rfl

/-! ## C9: the declared kind is stable under every operation sequence -/

/-- C9: for every concrete parser instance, the declared kind fixed at
construction is unchanged by every subsequent sequence of operations
(parsing with any source and options, data access, `data_nounits`, `encode`,
rendering): after any such sequence the instance's `_type` is still the one
it was constructed with. -/
theorem C9_declared_kind_stable :
    (∀ (ops : List Op) (s : ParserState), (ops.foldl stepOp s)._type = s._type) ∧
    (∀ (cls : ParserClass) (ops : List Op),
        (ops.foldl stepOp (construct cls).st)._type = some cls.fileType) := by
  have hmain : ∀ (ops : List Op) (s : ParserState), (ops.foldl stepOp s)._type = s._type := by
    intro ops
    induction ops with
    | nil => intro s; rfl
    | cons op tl ih =>
        intro s
        rw [List.foldl_cons, ih, stepOp_preserves_type]
  exact ⟨hmain, fun cls ops => by rw [hmain]; rfl⟩

/-! ## Helper lemmas: re-invoking parse reproduces the same state -/

/-- Inverting `do let x ← e; Except.ok (g x) = Except.ok s1`. -/
theorem bindOk_shape {α β : Type} {e : Except PyError α} {g : α → β} {b : β}
    (h : (do
      let x ← e
      Except.ok (g x)) = Except.ok b) : ∃ t, e = Except.ok t ∧ g t = b := by
  cases e with
  | error err => simp at h
  | ok t =>
      simp only [except_bind_ok, Except.ok.injEq] at h
      exact ⟨t, rfl, h⟩

/-- Inverting a successful site parse: the id must have been falsy, the root
must have had a first `site` child, and the resulting state is determined. -/
theorem siteParse_ok_shape {s s1 : ParserState} {f : XmlFile} {id : Option String}
    (h : SiteParser.parse s f id = Except.ok s1) :
    pyTruthyStr id = false ∧
    ∃ site rest, findAll f.root "site" = site :: rest ∧
      s1 = { s with _data := (findChild site "soil").map Doc.tree,
                    _path := some f.path, _name := some (pathName f.path) } := by
  unfold SiteParser.parse SiteParser.parseFile at h
  revert h
  cases hpt : pyTruthyStr id <;> cases hs : findAll f.root "site" <;> intro h <;>
    simp at h
  exact ⟨rfl, _, _, rfl, h.symm⟩

/-- Re-running the shared text parse on the state it just produced reproduces
that state (the routine reads nothing from the prior state). -/
theorem parseFile_idem {s s1 : ParserState} {f : TextFile} {sh d : Bool}
    {vars : Option (List String)}
    (h : TxtParser.parseFile s f sh d vars = Except.ok s1) :
    TxtParser.parseFile s1 f sh d vars = Except.ok s1 := by
  unfold TxtParser.parseFile at h ⊢
  obtain ⟨t, ht, hg⟩ := bindOk_shape h
  rw [ht]
  simp only [except_bind_ok]
  rw [← hg]

/-- Same for the daily-results parse. -/
theorem dailyParse_idem {s s1 : ParserState} {f : TextFile}
    {vars ids : Option (List String)}
    (h : DailyResultsParser.parse s f vars ids = Except.ok s1) :
    DailyResultsParser.parse s1 f vars ids = Except.ok s1 := by
  unfold DailyResultsParser.parse at h ⊢
  obtain ⟨t, ht, hg⟩ := bindOk_shape h
  rw [ht]
  simp only [except_bind_ok]
  rw [← hg]

/-- Same for the site parse. -/
theorem siteParse_idem {s s1 : ParserState} {f : XmlFile} {id : Option String}
    (h : SiteParser.parse s f id = Except.ok s1) :
    SiteParser.parse s1 f id = Except.ok s1 := by
  obtain ⟨hpt, site, rest, hs, rfl⟩ := siteParse_ok_shape h
  unfold SiteParser.parse SiteParser.parseFile
  simp [hpt, hs]

/-! ## C7: parsing the same file twice yields the same document -/

/-- C7: for every source file and fixed options, a second `parse` of the same
file with identical options reproduces exactly the state the first one
produced — in particular the held `ParsedDocument`s of the two parses are
structurally equal (the parse routines are deterministic functions of the
file contents and options alone). -/
theorem C7_parse_deterministic :
    (∀ (s s1 : ParserState) (f : TextFile) (vars : Option (List String)),
        AirchemParser.parse s f vars = Except.ok s1 →
        AirchemParser.parse s1 f vars = Except.ok s1) ∧
    (∀ (s s1 : ParserState) (f : TextFile) (vars : Option (List String)),
        ClimateParser.parse s f vars = Except.ok s1 →
        ClimateParser.parse s1 f vars = Except.ok s1) ∧
    (∀ (s s1 : ParserState) (f : XmlFile) (id : Option String),
        SiteParser.parse s f id = Except.ok s1 →
        SiteParser.parse s1 f id = Except.ok s1) ∧
    (∀ (s s1 : ParserState) (f : TextFile) (vars ids : Option (List String)),
        DailyResultsParser.parse s f vars ids = Except.ok s1 →
        DailyResultsParser.parse s1 f vars ids = Except.ok s1) :=
  ⟨fun _ _ _ _ h => parseFile_idem h,
   fun _ _ _ _ h => parseFile_idem h,
   fun _ _ _ _ h => siteParse_idem h,
   fun _ _ _ _ _ h => dailyParse_idem h⟩

/-- A daily-results file used by the C7 witness. -/
def exDailyFile : TextFile :=
  { path := "out/daily.txt", lines := ["id\tv", "1\ta", "2\tb", "1\tc"] }

/-- The state the first parse of `exDailyFile` produces. -/
def exDailyParsedState : ParserState :=
  { _data := some (Doc.tab
      { columns := ["id", "v"], index := none, rows := [["1", "a"], ["2", "b"], ["1", "c"]] })
    _name := some "daily.txt"
    _path := some "out/daily.txt"
    _type := some (FileKind.outF OutFile.DAILY) }

/-- Witness for C7: re-parsing `exDailyFile` from the state the first parse
produced reproduces that state. -/
theorem C7_witness :
    DailyResultsParser.parse exDailyParsedState exDailyFile none none =
      Except.ok exDailyParsedState :=
  C7_parse_deterministic.2.2.2 (baseInit (FileKind.outF OutFile.DAILY))
    exDailyParsedState exDailyFile none none rfl

/-! ## Bridging lemmas between `List.contains` and membership -/

/-- `contains` is the decidable membership test. -/
theorem contains_eq_decide_mem {α : Type} [DecidableEq α] (l : List α) (a : α) :
    l.contains a = decide (a ∈ l) :=
  List.elem_eq_mem a l

/-- A positive `contains` gives membership. -/
theorem mem_of_contains_true {α : Type} [DecidableEq α] {l : List α} {a : α}
    (h : l.contains a = true) : a ∈ l := by
  rw [contains_eq_decide_mem] at h
  exact of_decide_eq_true h

/-- Non-membership gives a negative `contains`. -/
theorem contains_false_of_not_mem {α : Type} [DecidableEq α] {l : List α} {a : α}
    (h : a ∉ l) : l.contains a = false := by
  rw [contains_eq_decide_mem]
  exact decide_eq_false h

/-! ## C2: daily-results id filtering -/

/-- Evaluating the daily-results parse pipeline with an id filter: when the
requested ids are all present the rows are filtered, otherwise the data is
left as parsed. -/
theorem dailyParseTable_eval (lines : List String) (vs : List String) (t0 : Table)
    (i : Nat) (hvs : vs ≠ [])
    (ht : txtParse lines false true none = Except.ok t0)
    (hid : t0.columns.findIdx? (fun x => x = "id") = some i) :
    DailyResultsParser.parseTable lines none (some vs) =
      Except.ok
        (if vs.all (fun v => ((t0.rows.map (fun r => r.getD i "")).dedup).contains v) then
          { t0 with rows := t0.rows.filter (fun r => vs.contains (r.getD i "")) }
        else t0) := by
  obtain ⟨v, vt, rfl⟩ : ∃ v vt, vs = v :: vt := by
    cases vs with
    | nil => exact absurd rfl hvs
    | cons v vt => exact ⟨v, vt, rfl⟩
  have hcv : colValues t0 "id" = some (t0.rows.map (fun r => r.getD i "")) := by
    simp [colValues, hid]
  unfold DailyResultsParser.parseTable
  rw [ht]
  simp only [except_bind_ok, pyTruthyList, List.isEmpty_cons, Bool.not_false,
    ite_true_bool, ite_false_bool, hcv, Option.getD_some]
  cases hall : (v :: vt).all
      (fun x => ((t0.rows.map (fun r => r.getD i "")).dedup).contains x) <;>
    simp only [ite_true_bool, ite_false_bool, hid, except_bind_ok] <;> rfl

/-- C2 as amended: with a non-empty requested id list whose members are all
present in the parsed `id` column, the daily-results parse keeps exactly the
rows whose id is requested, in their original order (a sublist of the parsed
rows); with at least one requested id absent, the parse *succeeds with the
data left unfiltered* (the code prints a warning and continues) instead of
failing with an `IdNotFound` error. -/
theorem C2_amended_daily_id_filter (s : ParserState) (f : TextFile) (vs : List String)
    (t0 : Table) (i : Nat)
    (hvs : vs ≠ [])
    (ht : txtParse f.lines false true none = Except.ok t0)
    (hid : t0.columns.findIdx? (fun x => x = "id") = some i) :
    (vs.all (fun v => ((t0.rows.map (fun r => r.getD i "")).dedup).contains v) = true →
      DailyResultsParser.parse s f none (some vs) =
        Except.ok { s with
          _data := some (Doc.tab { t0 with
            rows := t0.rows.filter (fun r => vs.contains (r.getD i "")) })
          _path := some f.path
          _name := some (pathName f.path) } ∧
      (t0.rows.filter (fun r => vs.contains (r.getD i ""))).Sublist t0.rows ∧
      (∀ r ∈ t0.rows.filter (fun r => vs.contains (r.getD i "")), r.getD i "" ∈ vs)) ∧
    (vs.all (fun v => ((t0.rows.map (fun r => r.getD i "")).dedup).contains v) = false →
      DailyResultsParser.parse s f none (some vs) =
        Except.ok { s with
          _data := some (Doc.tab t0)
          _path := some f.path
          _name := some (pathName f.path) }) := by
  have hptab := dailyParseTable_eval f.lines vs t0 i hvs ht hid
  constructor
  · intro hall
    rw [hall] at hptab
    simp only [if_true] at hptab
    refine ⟨?_, List.filter_sublist _, ?_⟩
    · unfold DailyResultsParser.parse
      rw [hptab]
      simp only [except_bind_ok]
    · intro r hr
      rw [List.mem_filter] at hr
      exact mem_of_contains_true hr.2
  · intro hall
    rw [hall] at hptab
    simp only [Bool.false_eq_true, if_false] at hptab
    unfold DailyResultsParser.parse
    rw [hptab]
    simp only [except_bind_ok]

/-- A daily-results file whose `id` column holds only "1" and "2". -/
def exDailyMissingFile : TextFile :=
  { path := "daily.txt", lines := ["id\tv", "1\ta", "2\tb"] }

/-- C2 counterexample: requesting id "3", which is absent from the data, does
*not* fail with an `IdNotFound` error — the parse succeeds and the held
document keeps all rows unfiltered (ids "1" and "2", not a subset of the
requested ids). -/
theorem C2_counterexample :
    DailyResultsParser.parse (baseInit (FileKind.outF OutFile.DAILY))
        exDailyMissingFile none (some ["3"]) =
      Except.ok
        { _data := some (Doc.tab
            { columns := ["id", "v"], index := none, rows := [["1", "a"], ["2", "b"]] })
          _name := some "daily.txt"
          _path := some "daily.txt"
          _type := some (FileKind.outF OutFile.DAILY) } ∧
    ∀ e : PyError,
      DailyResultsParser.parse (baseInit (FileKind.outF OutFile.DAILY))
          exDailyMissingFile none (some ["3"]) ≠ Except.error e := by
  refine ⟨rfl, fun e h => ?_⟩
  exact Except.noConfusion h

/-- The table the daily parse produces from `exDailyFile`. -/
def exT0 : Table :=
  { columns := ["id", "v"], index := none, rows := [["1", "a"], ["2", "b"], ["1", "c"]] }

/-- Witness for C2 as amended: requesting the present id "1" keeps exactly
the two rows with id "1", in order. -/
theorem C2_witness :
    DailyResultsParser.parse (baseInit (FileKind.outF OutFile.DAILY))
        exDailyFile none (some ["1"]) =
      Except.ok { baseInit (FileKind.outF OutFile.DAILY) with
        _data := some (Doc.tab { exT0 with
          rows := exT0.rows.filter (fun r => (["1"] : List String).contains (r.getD 0 "")) })
        _path := some exDailyFile.path
        _name := some (pathName exDailyFile.path) } ∧
    (exT0.rows.filter (fun r => (["1"] : List String).contains (r.getD 0 ""))).Sublist
      exT0.rows ∧
    (∀ r ∈ exT0.rows.filter (fun r => (["1"] : List String).contains (r.getD 0 "")),
      r.getD 0 "" ∈ (["1"] : List String)) :=
  (C2_amended_daily_id_filter (baseInit (FileKind.outF OutFile.DAILY)) exDailyFile
    ["1"] exT0 0 (by decide) rfl (by decide)).1 (by decide)

/-! ## C4: header skipping -/

/-- The header-skip loop discards exactly the lines up to and including the
first line containing the `%data` marker. -/
theorem skipHeaderLines_spec (pre rest : List String) (m : String)
    (hpre : ∀ l ∈ pre, containsMarker l = false) (hm : containsMarker m = true) :
    skipHeaderLines (pre ++ m :: rest) = rest := by
  induction pre with
  | nil => simp [skipHeaderLines, hm]
  | cons a tl ih =>
      have ha : containsMarker a = false := hpre a (List.mem_cons_self a tl)
      rw [List.cons_append, skipHeaderLines, ha]
      simp only [Bool.false_eq_true, if_false]
      exact ih (fun l hl => hpre l (List.mem_cons_of_mem a hl))

/-- Evaluating `read_csv` once the non-blank lines are known. -/
theorem read_csv_eval (text : List String) (header : String) (body : List String)
    (h : text.filter (fun l => l ≠ "") = header :: body) :
    read_csv text =
      Except.ok { columns := splitTab header, index := none, rows := body.map splitTab } := by
  unfold read_csv
  rw [h]

/-- `_set_index_col` is the identity when neither candidate column exists. -/
theorem set_index_col_noop (t : Table)
    (h1 : "datetime" ∉ t.columns)
    (h2 : "*" ∉ t.columns) :
    TxtParser.set_index_col t = t := by
  simp [TxtParser.set_index_col, promoteStep, h1, h2]

/-- C4 as amended: with header skipping enabled on a file containing the
`%data` marker, every line up to and including the first marker line is
discarded and the header is the first non-blank line after it; provided that
header names no index-promoted column (`datetime` or `*`), the resulting
document's column set is exactly the header's fields. (When the header does
name `datetime` or `*`, that column is promoted to the index and is absent
from the columns — see the counterexample.) -/
theorem C4_amended_header_skip (pre rest : List String) (m header : String)
    (body : List String) (daily : Bool)
    (hpre : ∀ l ∈ pre, containsMarker l = false)
    (hm : containsMarker m = true)
    (hrest : rest.filter (fun l => l ≠ "") = header :: body)
    (hnd : "datetime" ∉ splitTab header)
    (hns : "*" ∉ splitTab header) :
    txtParse (pre ++ m :: rest) true daily none =
      Except.ok { columns := splitTab header, index := none, rows := body.map splitTab } := by
  simp only [txtParse, ite_true_bool, if_true]
  rw [skipHeaderLines_spec pre rest m hpre hm, read_csv_eval _ header body hrest]
  simp only [except_bind_ok, pyTruthyList, Bool.false_eq_true, if_false]
  rw [set_index_col_noop _ hnd hns]

/-- C4 counterexample: when the header after the marker contains a `datetime`
column, the resulting column set is *not* the header's field set — the
`datetime` column has been promoted to the index and removed. -/
theorem C4_counterexample :
    txtParse ["prelude", "x %data y", "datetime\tv", "2020-01-01\tq"] true false none =
      Except.ok { columns := ["v"], index := some ("date", ["2020-01-01"]), rows := [["q"]] } ∧
    ({ columns := ["v"], index := some ("date", ["2020-01-01"]), rows := [["q"]] } : Table).columns ≠
      splitTab "datetime\tv" :=
  ⟨rfl, by decide⟩

/-- Witness for C4 as amended, on a small airchem-style file. -/
theorem C4_witness :
    txtParse (["junk"] ++ "x %data y" :: ["temp\tv", "5\t6"]) true false none =
      Except.ok { columns := splitTab "temp\tv", index := none,
                  rows := (["5\t6"] : List String).map splitTab } :=
  C4_amended_header_skip ["junk"] ["temp\tv", "5\t6"] "x %data y" "temp\tv" ["5\t6"] false
    (by decide) (by decide) (by decide) (by decide) (by decide)

/-! ## C5: index promotion -/

/-- Zipping a list with its image and appending pointwise. -/
theorem zip_map_append (l : List (List String)) (g : List String → String) :
    (l.zip (l.map g)).map (fun p => p.1 ++ [p.2]) = l.map (fun r => r ++ [g r]) := by
  induction l with
  | nil => rfl
  | cons a tl ih => simp [ih]

/-- Reading the freshly appended last element. -/
theorem getD_append_length {α : Type} (l : List α) (a d : α) :
    (l ++ [a]).getD l.length d = a := by
  induction l with
  | nil => rfl
  | cons x tl ih =>
      simp only [List.cons_append, List.length_cons, List.getD_cons_succ]
      exact ih

/-- Removing the freshly appended last element gives the original list back. -/
theorem removeIdx_append_last {α : Type} (l : List α) (a : α) :
    removeIdx (l ++ [a]) l.length = l := by
  induction l with
  | nil => rfl
  | cons x tl ih =>
      simp only [removeIdx, List.cons_append, List.length_cons, List.take_succ_cons,
        List.drop_succ_cons] at ih ⊢
      rw [ih]

/-- Removal at an index only shrinks the member set. -/
theorem mem_of_mem_removeIdx {α : Type} {l : List α} {i : Nat} {x : α}
    (h : x ∈ removeIdx l i) : x ∈ l := by
  unfold removeIdx at h
  rcases List.mem_append.mp h with h1 | h1
  · exact List.take_subset i l h1
  · exact List.drop_subset _ l h1

/-- On a duplicate-free list, removing the position `findIdx?` found for an
element removes every occurrence of it. -/
theorem not_mem_removeIdx_of_nodup {α : Type} [DecidableEq α] (l : List α) :
    ∀ (i : Nat) (a : α), l.Nodup → l.findIdx? (fun x => x = a) = some i →
      a ∉ removeIdx l i := by
  induction l with
  | nil => intro i a _ hfind; simp at hfind
  | cons x tl ih =>
      intro i a hn hfind
      rw [List.findIdx?_cons, List.findIdx?_succ] at hfind
      by_cases hx : x = a
      · simp [hx] at hfind
        have hi0 : i = 0 := by omega
        subst hi0
        have hrm : removeIdx (x :: tl) 0 = tl := rfl
        rw [hrm]
        intro hmem
        exact (List.nodup_cons.mp hn).1 (hx ▸ hmem)
      · simp [hx] at hfind
        obtain ⟨j, hj, hji⟩ := hfind
        subst hji
        have hrm : removeIdx (x :: tl) (j + 1) = x :: removeIdx tl j := by
          simp [removeIdx]
        rw [hrm]
        intro hmem
        rcases List.mem_cons.mp hmem with heq | hmem2
        · exact hx heq.symm
        · exact ih j a (List.nodup_cons.mp hn).2 hj hmem2

/-- One promotion step, fully evaluated: with `dcol` present at position `i`,
no pre-existing `date` column, and rectangular rows, the step installs the
date-parsed values of `dcol` as the index named `date`, removes `dcol` from
the named columns, and leaves the other cells in place. -/
theorem promoteStep_eq (t : Table) (dcol : String) (i : Nat)
    (hi : t.columns.findIdx? (fun x => x = dcol) = some i)
    (hdate : "date" ∉ t.columns)
    (hrect : ∀ r ∈ t.rows, r.length = t.columns.length) :
    promoteStep t dcol =
      { columns := removeIdx t.columns i
        index := some ("date", t.rows.map (fun r => toDate (r.getD i "")))
        rows := t.rows.map (fun r => removeIdx r i) } := by
  set g : List String → String := fun r => toDate (r.getD i "") with hg
  have hmem : dcol ∈ t.columns := by
    obtain ⟨hlen, hp, -⟩ := List.findIdx?_eq_some_iff_getElem.mp hi
    have heq : t.columns[i] = dcol := by simpa using hp
    exact heq ▸ List.getElem_mem hlen
  have hguard : t.columns.contains dcol = true := by
    rw [contains_eq_decide_mem]
    exact decide_eq_true hmem
  have hvals : ((colValues t dcol).getD []).map toDate = t.rows.map g := by
    simp [colValues, hi, List.map_map, hg, Function.comp]
  have hdate_idx : t.columns.findIdx? (fun x => x = "date") = none :=
    List.findIdx?_eq_none_iff.mpr (fun x hx => by
      simp only [decide_eq_false_iff_not]
      intro h
      exact hdate (h ▸ hx))
  have hsetcol : setCol t "date" (t.rows.map g) =
      { columns := t.columns ++ ["date"]
        index := t.index
        rows := t.rows.map (fun r => r ++ [g r]) } := by
    unfold setCol
    rw [hdate_idx, zip_map_append]
  have hfind_date : (t.columns ++ ["date"]).findIdx? (fun x => x = "date") =
      some t.columns.length := by
    rw [List.findIdx?_append, hdate_idx]
    simp
  have hrows : (t.rows.map (fun r => r ++ [g r])).map
      (fun r => removeIdx r t.columns.length) = t.rows := by
    rw [List.map_map]
    have hpt : ∀ r ∈ t.rows,
        ((fun r => removeIdx r t.columns.length) ∘ fun r => r ++ [g r]) r = id r := by
      intro r hr
      simp only [Function.comp_apply, id_eq]
      rw [← hrect r hr]
      exact removeIdx_append_last r (g r)
    rw [List.map_congr_left hpt, List.map_id]
  have hidxvals : (t.rows.map (fun r => r ++ [g r])).map
      (fun r => r.getD t.columns.length "") = t.rows.map g := by
    rw [List.map_map]
    refine List.map_congr_left ?_
    intro r hr
    simp only [Function.comp_apply]
    rw [← hrect r hr]
    exact getD_append_length r (g r) ""
  have hsetidx : setIndex
      { columns := t.columns ++ ["date"], index := t.index,
        rows := t.rows.map (fun r => r ++ [g r]) } "date" =
      { columns := t.columns
        index := some ("date", t.rows.map g)
        rows := t.rows } := by
    unfold setIndex
    simp only [hfind_date, removeIdx_append_last, hrows, hidxvals]
  have hdel : delCol
      { columns := t.columns, index := some ("date", t.rows.map g), rows := t.rows } dcol =
      { columns := removeIdx t.columns i
        index := some ("date", t.rows.map g)
        rows := t.rows.map (fun r => removeIdx r i) } := by
    unfold delCol
    simp only [hi]
  unfold promoteStep
  simp only [hguard, ite_true_bool, if_true]
  rw [hvals, hsetcol, hsetidx, hdel]

/-- C5 as amended: on a parsed table with rectangular rows, duplicate-free
columns, no pre-existing `date` column, and containing *exactly one* of the
candidate columns `datetime` / `*`: that column's values are date-parsed and
installed as the row index (named `date`), the column is removed from the
named columns, the row count is unchanged, and exactly this one promotion
occurs. (With both candidates present the loop promotes both in turn and only
the values of `*` survive as the index — see the counterexample.) -/
theorem C5_amended_index_promotion (t : Table) (dcol : String) (i : Nat)
    (hdc : dcol = "datetime" ∨ dcol = "*")
    (hi : t.columns.findIdx? (fun x => x = dcol) = some i)
    (hod : dcol = "datetime" → "*" ∉ t.columns)
    (hos : dcol = "*" → "datetime" ∉ t.columns)
    (hdate : "date" ∉ t.columns)
    (hnodup : t.columns.Nodup)
    (hrect : ∀ r ∈ t.rows, r.length = t.columns.length) :
    TxtParser.set_index_col t =
      { columns := removeIdx t.columns i
        index := some ("date", t.rows.map (fun r => toDate (r.getD i "")))
        rows := t.rows.map (fun r => removeIdx r i) } ∧
    dcol ∉ removeIdx t.columns i ∧
    (t.rows.map (fun r => removeIdx r i)).length = t.rows.length := by
  have hstep := promoteStep_eq t dcol i hi hdate hrect
  have hno : dcol ∉ removeIdx t.columns i :=
    not_mem_removeIdx_of_nodup t.columns i dcol hnodup hi
  have hfold : TxtParser.set_index_col t = promoteStep (promoteStep t "datetime") "*" := rfl
  refine ⟨?_, hno, by simp⟩
  rcases hdc with rfl | rfl
  · rw [hfold, hstep]
    have hstar : ("*" : String) ∉ removeIdx t.columns i := fun hmem =>
      hod rfl (mem_of_mem_removeIdx hmem)
    unfold promoteStep
    simp only [contains_false_of_not_mem hstar, ite_false_bool]
  · have hone : promoteStep t "datetime" = t := by
      unfold promoteStep
      simp only [contains_false_of_not_mem (hos rfl), ite_false_bool]
    rw [hfold, hone, hstep]

/-- C5 counterexample: with *both* `datetime` and `*` present, the loop runs
twice — both columns are removed and the final index holds the values of `*`,
not those of `datetime`, although `datetime` is a candidate column the claim
covers. -/
theorem C5_counterexample :
    TxtParser.set_index_col
        { columns := ["datetime", "*"], index := none,
          rows := [["2020-01-01", "2021-02-02"]] } =
      { columns := [], index := some ("date", ["2021-02-02"]), rows := [[]] } ∧
    (TxtParser.set_index_col
        { columns := ["datetime", "*"], index := none,
          rows := [["2020-01-01", "2021-02-02"]] }).index ≠
      some ("date", ["2020-01-01"]) :=
  ⟨by decide, by decide⟩

/-- A climate-style parsed table with a single `datetime` column. -/
def exClimT : Table :=
  { columns := ["datetime", "temp"], index := none,
    rows := [["2020-01-01", "5.2"], ["2020-01-02", "6.1"]] }

/-- Witness for C5 as amended on `exClimT`. -/
theorem C5_witness :
    TxtParser.set_index_col exClimT =
      { columns := removeIdx exClimT.columns 0
        index := some ("date", exClimT.rows.map (fun r => toDate (r.getD 0 "")))
        rows := exClimT.rows.map (fun r => removeIdx r 0) } ∧
    "datetime" ∉ removeIdx exClimT.columns 0 ∧
    (exClimT.rows.map (fun r => removeIdx r 0)).length = exClimT.rows.length :=
  C5_amended_index_promotion exClimT "datetime" 0 (Or.inl rfl) (by decide)
    (fun _ => by decide) (fun h => absurd h (by decide)) (by decide) (by decide)
    (by decide)
